import Mathlib

/-!
Shallow embedding of the data-processing utility (src/main.py, src/utils.py,
src/automation.py) and proofs about its validate / transform / config /
adapter behaviour.

Modelling conventions:
* Python values flowing through the pipeline (JSON payloads, config values,
  records) are modelled by the inductive type `PyVal`.  Python `bool` is a
  subtype of `int`, so `isinstance(x, (int, float))` is true for booleans;
  `isNumber` reflects exactly that check.  Python floats are modelled as
  exact rationals (finite values; IEEE rounding, NaN and infinities are out
  of the model).
* Python dicts are association lists with distinct keys; `List.lookup`
  models `dict.get` / `in`.
* Exceptions are modelled with `Except PyErr`; a function that cannot raise
  is total.
* The filesystem is an explicit parameter `FS : String -> FSEntry`:
  a path is absent, or holds a file whose raw text and optional JSON parse
  are given, or exists but raises an OS error when opened or read.
* The HTTP transport (the `requests` library) is an explicit parameter
  `Http`: given url, upper-cased method, headers and optional JSON payload
  it yields either a response (status code, optional parsed JSON body, raw
  body text) or a transport-level error.
-/

/-- A Python/JSON value as used by the pipeline. -/
inductive PyVal where
  | null : PyVal
  | bool (b : Bool) : PyVal
  | int (n : Int) : PyVal
  | float (q : Rat) : PyVal
  | str (s : String) : PyVal
  | list (xs : List PyVal) : PyVal
  | dict (flds : List (String × PyVal)) : PyVal

/-- The Python exceptions the embedded code can raise. -/
inductive PyErr where
  | valueError (msg : String) : PyErr
  | jsonDecodeError : PyErr
  | osError (msg : String) : PyErr
  | typeError (msg : String) : PyErr
  | attributeError (msg : String) : PyErr
  deriving Repr, DecidableEq

/-- `isinstance(v, (int, float))`: true for Python bools (a subtype of int),
ints and floats. -/
def isNumber : PyVal → Bool
  | .bool _ => true
  | .int _ => true
  | .float _ => true
  | _ => false

/-- `isinstance(v, str)`. -/
def isStr : PyVal → Bool
  | .str _ => true
  | _ => false

/-- The text of a string value (defaulting to `""` off strings). -/
def strVal : PyVal → String
  | .str s => s
  | _ => ""

/-- The numeric content of a bool/int/float value, as an exact rational
(`0` off numbers). -/
def PyVal.asRat : PyVal → Rat
  | .bool b => if b then 1 else 0
  | .int n => (n : Rat)
  | .float q => q
  | _ => 0

/-- The integer content of an int-like value (Python bools are ints);
`none` for floats and non-numbers. -/
def PyVal.asIntLike : PyVal → Option Int
  | .bool b => some (if b then 1 else 0)
  | .int n => some n
  | _ => Option.none

/-- `d[k]` on a dict, defaulting to `None`; the embedded code only indexes
dicts whose keys were checked present. -/
def PyVal.item : PyVal → String → PyVal
  | .dict flds, k => (List.lookup k flds).getD .null
  | _, _ => .null

/-- `d[k] = v` on a dict: replace the value of an existing key in place,
else append the new key (non-dicts are returned unchanged; the embedded
code only assigns into dicts). -/
def PyVal.setItem : PyVal → String → PyVal → PyVal
  | .dict flds, k, v =>
      .dict (if flds.any (fun p => p.1 == k) then
               flds.map (fun p => if p.1 == k then (k, v) else p)
             else flds ++ [(k, v)])
  | other, _, _ => other

/-- src/main.py `validate_input(data)`: `data` is a dict containing keys
`"name"` and `"value"`, `name` is a non-empty `str`, `value` is an
`int`/`float` (hence possibly a bool) that is not `< 0`. -/
def validate_input (data : PyVal) : Bool :=
  match data with
  | .dict flds =>
      match List.lookup "name" flds, List.lookup "value" flds with
      | some nameV, some valueV =>
          if !(isStr nameV) || strVal nameV == "" then false
          else if !(isNumber valueV) || decide (valueV.asRat < 0) then false
          else true
      | _, _ => false
  | _ => false

example : validate_input (.dict [("name", .str "Test Sample"), ("value", .int 42)]) = true := by
  decide

example : validate_input (.dict [("name", .str ""), ("value", .int (-1))]) = false := by
  decide

example : validate_input (.dict [("name", .str "x"), ("value", .bool true)]) = true := by
  decide

/-- One file on disk: its raw text and the result of `json.loads` on it
(`some v` when the text is well-formed JSON, else `none`). -/
structure FSFile where
  raw : String
  parsed : Option PyVal

/-- What a path resolves to: absent (`os.path.exists` is false), a readable
file, or an existing path whose open/read raises an OS-level error. -/
inductive FSEntry where
  | absent : FSEntry
  | file (f : FSFile) : FSEntry
  | readError (msg : String) : FSEntry

/-- The filesystem, passed explicitly to every file-touching function. -/
abbrev FS := String → FSEntry

/-- src/utils.py `load_config(config_path)`: empty dict when the path does
not exist; the parsed JSON when it reads and parses; `json.JSONDecodeError`
re-raised when the content is malformed; an OS error during open/read is
not caught and propagates. -/
def load_config (fsys : FS) (config_path : String) : Except PyErr PyVal :=
  match fsys config_path with
  | .absent => .ok (.dict [])
  | .file f =>
      match f.parsed with
      | some config => .ok config
      | Option.none => .error .jsonDecodeError
  | .readError msg => .error (.osError msg)

/-- `v.get(k, default)` in Python: dict lookup with default, raising
`AttributeError` when `v` is not a dict. -/
def dictGet (v : PyVal) (k : String) (default : PyVal) : Except PyErr PyVal :=
  match v with
  | .dict flds => .ok ((List.lookup k flds).getD default)
  | _ => .error (.attributeError "get")

/-- src/utils.py `get_config_value(section, key, default, config_path)`:
`load_config(...).get(section, {}).get(key, default)` with every exception
swallowed into `default`. -/
def get_config_value (fsys : FS) (sect key : String) (default : PyVal)
    (config_path : String) : PyVal :=
  let attempt : Except PyErr PyVal :=
    match load_config fsys config_path with
    | .error e => .error e
    | .ok config =>
        match dictGet config sect (.dict []) with
        | .error e => .error e
        | .ok sub => dictGet sub key default
  match attempt with
  | .ok v => v
  | .error _ => default

/-- `n * s` string repetition for `int * str` (empty for non-positive
counts, as in Python). -/
def strRepeat (s : String) (n : Int) : String :=
  String.join (List.replicate n.toNat s)

/-- `n * xs` list repetition for `int * list`. -/
def listRepeat (xs : List PyVal) (n : Int) : List PyVal :=
  (List.replicate n.toNat xs).flatten

/-- Python `a * b` for the value shapes reachable from the pipeline:
int-like times int-like is exact integer multiplication, any float operand
makes an exact rational (float) product, an int-like count repeats a
string or list, and everything else raises `TypeError`. -/
def pyMul (a b : PyVal) : Except PyErr PyVal :=
  match a.asIntLike, b.asIntLike with
  | some m, some n => .ok (.int (m * n))
  | some m, Option.none =>
      if isNumber b then .ok (.float (a.asRat * b.asRat))
      else
        match b with
        | .str s => .ok (.str (strRepeat s m))
        | .list xs => .ok (.list (listRepeat xs m))
        | _ => .error (.typeError "unsupported operand type for *")
  | Option.none, some n =>
      if isNumber a then .ok (.float (a.asRat * b.asRat))
      else
        match a with
        | .str s => .ok (.str (strRepeat s n))
        | .list xs => .ok (.list (listRepeat xs n))
        | _ => .error (.typeError "unsupported operand type for *")
  | Option.none, Option.none =>
      if isNumber a && isNumber b then .ok (.float (a.asRat * b.asRat))
      else .error (.typeError "unsupported operand type for *")

/-- src/main.py `process_data(data, config_path)`: raise
`ValueError("Invalid input data")` on invalid input, else multiply the
value by the configured multiplier (default 2) and build the result dict. -/
def process_data (fsys : FS) (data : PyVal) (config_path : String) :
    Except PyErr PyVal :=
  if !(validate_input data) then .error (.valueError "Invalid input data")
  else do
    let multiplier := get_config_value fsys "processing" "default_multiplier"
      (.int 2) config_path
    let processed_value ← pyMul (data.item "value") multiplier
    return .dict [("status", .str "success"),
                  ("original_value", data.item "value"),
                  ("processed_value", processed_value),
                  ("name", data.item "name")]

example :
    process_data (fun _ => .absent)
      (.dict [("name", .str "Test Sample"), ("value", .int 42)]) "config.json" =
    .ok (.dict [("status", .str "success"), ("original_value", .int 42),
                ("processed_value", .int 84), ("name", .str "Test Sample")]) := by
  rfl

example :
    process_data (fun _ => .absent)
      (.dict [("name", .str ""), ("value", .int (-1))]) "config.json" =
    .error (.valueError "Invalid input data") := by
  rfl

/-- src/main.py `process_api_response(response_data, config_path)`: remap
`title`/`id` into a record via `dict.get` (raising `AttributeError` when
the body is not a dict), run `process_data`, rewrite `status` to
`"processed"` on success, and turn a `ValueError` into an error dict; any
other exception propagates. -/
def process_api_response (fsys : FS) (response_data : PyVal)
    (config_path : String) : Except PyErr PyVal :=
  match response_data with
  | .dict flds =>
      let extracted_data : PyVal :=
        .dict [("name", (List.lookup "title" flds).getD (.str "Unknown")),
               ("value", (List.lookup "id" flds).getD (.int 0))]
      match process_data fsys extracted_data config_path with
      | .ok result => .ok (result.setItem "status" (.str "processed"))
      | .error (.valueError msg) =>
          .ok (.dict [("status", .str "error"), ("message", .str msg)])
      | .error e => .error e
  | _ => .error (.attributeError "get")

/-- The result dict built by src/automation.py `file_automation`
(`success`, `message`, `data`). -/
structure FileResult where
  success : Bool
  message : String
  data : PyVal

/-- src/automation.py `file_automation(file_path)`: missing path, JSON
file, non-JSON file and read failure each produce a result dict; nothing
is raised. -/
def file_automation (fsys : FS) (file_path : String) : FileResult :=
  match fsys file_path with
  | .absent =>
      { success := false, message := "File not found: " ++ file_path,
        data := .null }
  | .file f =>
      match f.parsed with
      | some data =>
          { success := true, message := "File successfully processed as JSON",
            data := data }
      | Option.none =>
          { success := false, message := "File content is not valid JSON",
            data := .str f.raw }
  | .readError msg =>
      { success := false, message := "Error processing file: " ++ msg,
        data := .null }

/-- The outcome of one `requests.request` call: a response with its status
code, `response.json()` as an option and `response.text`, or a
transport-level exception. -/
inductive HttpOutcome where
  | response (status : Int) (parsed : Option PyVal) (text : String) : HttpOutcome
  | transportError (msg : String) : HttpOutcome

/-- The HTTP transport: url, upper-cased method, headers, optional JSON
payload. -/
abbrev Http := String → String → List (String × String) → Option PyVal → HttpOutcome

/-- Python truthiness of a value (used by `and data`). -/
def pyTruthy : PyVal → Bool
  | .null => false
  | .bool b => b
  | .int n => n != 0
  | .float q => q != 0
  | .str s => s != ""
  | .list xs => !xs.isEmpty
  | .dict flds => !flds.isEmpty

/-- `method.upper() in ["POST", "PUT", "PATCH"] and data`: the JSON payload
attached to the request, if any. -/
def attachPayload (method : String) (data : Option PyVal) : Option PyVal :=
  if (method.toUpper == "POST" || method.toUpper == "PUT"
      || method.toUpper == "PATCH")
     && (data.map pyTruthy).getD false then data
  else Option.none

/-- The result dict built by src/automation.py `api_automation`
(`success`, `message`, `data`, `status_code`). -/
structure ApiResult where
  success : Bool
  message : String
  data : PyVal
  status_code : Option Int

/-- src/automation.py `api_automation(url, method, headers, data)`: one
request through the transport; 2xx responses succeed with the parsed body
(falling back to raw text), other statuses fail with a message naming the
status code, and a transport error fails with `status_code` still `None`;
nothing is raised. -/
def api_automation (http : Http) (url : String) (method : String)
    (headers : Option (List (String × String))) (data : Option PyVal) :
    ApiResult :=
  match http url method.toUpper (headers.getD []) (attachPayload method data) with
  | .response status parsed text =>
      if 200 ≤ status ∧ status < 300 then
        match parsed with
        | some body =>
            { success := true, message := "API request successful",
              data := body, status_code := some status }
        | Option.none =>
            { success := true,
              message := "API request successful but response is not JSON",
              data := .str text, status_code := some status }
      else
        { success := false,
          message := "API request failed with status code: " ++ toString status,
          data := parsed.getD (.str text), status_code := some status }
  | .transportError msg =>
      { success := false, message := "Error making API request: " ++ msg,
        data := .null, status_code := Option.none }

example :
    process_api_response (fun _ => .absent)
      (.dict [("userId", .int 1), ("id", .int 1),
              ("title", .str "delectus aut autem"), ("completed", .bool false)])
      "config.json" =
    .ok (.dict [("status", .str "processed"), ("original_value", .int 1),
                ("processed_value", .int 2),
                ("name", .str "delectus aut autem")]) := by
  rfl

/-- Characterisation of `validate_input` (helper shared by several
theorems below). -/
theorem validate_spec_iff (data : PyVal) :
    validate_input data = true ↔
      ∃ flds nm v, data = PyVal.dict flds ∧
        List.lookup "name" flds = some (PyVal.str nm) ∧ nm ≠ "" ∧
        List.lookup "value" flds = some v ∧ isNumber v = true ∧ 0 ≤ v.asRat := by
  cases data with
  | dict flds =>
      cases hn : List.lookup "name" flds with
      | none => simp [validate_input, hn]
      | some nameV =>
          cases hv : List.lookup "value" flds with
          | none => simp [validate_input, hn, hv]
          | some valueV =>
              cases nameV with
              | null => simp [validate_input, hn, hv, isStr]
              | bool b => simp [validate_input, hn, hv, isStr]
              | int n => simp [validate_input, hn, hv, isStr]
              | float q => simp [validate_input, hn, hv, isStr]
              | list xs => simp [validate_input, hn, hv, isStr]
              | dict d => simp [validate_input, hn, hv, isStr]
              | str s =>
                  cases valueV <;>
                    simp_all [validate_input, isStr, strVal, isNumber,
                      PyVal.asRat, not_lt]
  | null => simp [validate_input]
  | bool b => simp [validate_input]
  | int n => simp [validate_input]
  | float q => simp [validate_input]
  | str s => simp [validate_input]
  | list xs => simp [validate_input]

/-- C1: `validate_input(record)` returns true iff `record` is a mapping
with keys `"name"` and `"value"`, the name is a non-empty string, and the
value is numeric (int or float, booleans included) and at least 0; every
other shape yields false.  Purity and absence of exceptions are reflected
by `validate_input` being a total Lean function into `Bool`. -/
theorem validate_input_iff (data : PyVal) :
    validate_input data = true ↔
      ∃ flds nm v, data = PyVal.dict flds ∧
        List.lookup "name" flds = some (PyVal.str nm) ∧ nm ≠ "" ∧
        List.lookup "value" flds = some v ∧ isNumber v = true ∧ 0 ≤ v.asRat :=
  validate_spec_iff data

/-- `process_data` on invalid input (helper): the `ValueError` is raised
before the config is read, so the result is the same for every filesystem. -/
theorem process_data_invalid_eq (fsys : FS) (data : PyVal)
    (config_path : String) (h : validate_input data = false) :
    process_data fsys data config_path =
      .error (.valueError "Invalid input data") := by
  simp [process_data, h]

/-- C3: on every record the validator rejects, `process_data` raises
`ValueError("Invalid input data")` (the spec's `InvalidInputError`), and it
does so before reading the multiplier or multiplying: the outcome is the
same for every filesystem/config, so no transform is performed. -/
theorem process_data_rejects_invalid (fsys : FS) (data : PyVal)
    (config_path : String) (h : validate_input data = false) :
    process_data fsys data config_path =
      .error (.valueError "Invalid input data") :=
  process_data_invalid_eq fsys data config_path h

theorem process_data_rejects_invalid_witness :
    process_data (fun _ => .absent)
      (.dict [("name", .str ""), ("value", .int (-1))]) "config.json" =
      .error (.valueError "Invalid input data") :=
  process_data_rejects_invalid (fun _ => .absent)
    (.dict [("name", .str ""), ("value", .int (-1))]) "config.json" (by decide)

/-- Multiplying two Python numbers (helper): always succeeds, yields a
number, and the numeric content is the exact product. -/
theorem pyMul_numbers (a b : PyVal) (ha : isNumber a = true)
    (hb : isNumber b = true) :
    ∃ pv, pyMul a b = .ok pv ∧ isNumber pv = true ∧
      pv.asRat = a.asRat * b.asRat := by
  cases a <;> cases b <;>
    simp_all [pyMul, PyVal.asIntLike, PyVal.asRat, isNumber]

/-- `process_data` on a valid record (helper): when the resolved multiplier
is a number, the result is exactly the success dict, and the processed
value is the exact product of the record's value and the multiplier. -/
theorem process_data_valid_eq (fsys : FS) (data : PyVal)
    (config_path : String) (hv : validate_input data = true)
    (hm : isNumber (get_config_value fsys "processing" "default_multiplier"
            (.int 2) config_path) = true) :
    ∃ pv,
      pyMul (data.item "value")
          (get_config_value fsys "processing" "default_multiplier" (.int 2)
            config_path) = .ok pv ∧
      isNumber pv = true ∧
      pv.asRat = (data.item "value").asRat *
        (get_config_value fsys "processing" "default_multiplier" (.int 2)
          config_path).asRat ∧
      process_data fsys data config_path =
        .ok (.dict [("status", .str "success"),
                    ("original_value", data.item "value"),
                    ("processed_value", pv),
                    ("name", data.item "name")]) := by
  obtain ⟨flds, nm, v, hd, hn, hne, hvv, hnum, hge⟩ :=
    (validate_spec_iff data).1 hv
  have hitem : data.item "value" = v := by
    subst hd
    simp [PyVal.item, hvv]
  obtain ⟨pv, h1, h2, h3⟩ :=
    pyMul_numbers (data.item "value")
      (get_config_value fsys "processing" "default_multiplier" (.int 2)
        config_path)
      (by rw [hitem]; exact hnum) hm
  refine ⟨pv, h1, h2, h3, ?_⟩
  simp [process_data, hv, h1]

/-- C2: on every record the validator accepts, and whenever the resolved
multiplier (`processing.default_multiplier` if present, else `2`) is a
number, `process_data` returns exactly
`{status: "success", original_value, processed_value, name}` with
`processed_value` the exact product of the record's value and the
multiplier — no rounding or truncation (integers multiply as integers,
floats as exact rationals in this model). -/
theorem process_data_success_spec (fsys : FS) (data : PyVal)
    (config_path : String) (hv : validate_input data = true)
    (hm : isNumber (get_config_value fsys "processing" "default_multiplier"
            (.int 2) config_path) = true) :
    ∃ pv,
      process_data fsys data config_path =
        .ok (.dict [("status", .str "success"),
                    ("original_value", data.item "value"),
                    ("processed_value", pv),
                    ("name", data.item "name")]) ∧
      isNumber pv = true ∧
      pv.asRat = (data.item "value").asRat *
        (get_config_value fsys "processing" "default_multiplier" (.int 2)
          config_path).asRat := by
  obtain ⟨pv, _, h2, h3, h4⟩ :=
    process_data_valid_eq fsys data config_path hv hm
  exact ⟨pv, h4, h2, h3⟩

theorem process_data_success_spec_witness :
    ∃ pv,
      process_data (fun _ => .absent)
          (.dict [("name", .str "Test Sample"), ("value", .int 42)])
          "config.json" =
        .ok (.dict [("status", .str "success"),
                    ("original_value",
                      (PyVal.dict [("name", .str "Test Sample"),
                        ("value", .int 42)]).item "value"),
                    ("processed_value", pv),
                    ("name",
                      (PyVal.dict [("name", .str "Test Sample"),
                        ("value", .int 42)]).item "name")]) ∧
      isNumber pv = true ∧
      pv.asRat = ((PyVal.dict [("name", .str "Test Sample"),
          ("value", .int 42)]).item "value").asRat *
        (get_config_value (fun _ => .absent) "processing"
          "default_multiplier" (.int 2) "config.json").asRat :=
  process_data_success_spec (fun _ => .absent)
    (.dict [("name", .str "Test Sample"), ("value", .int 42)])
    "config.json" (by decide) (by decide)

/-- C10: booleans pass the `isinstance(value, (int, float))` check (Python
bools are ints), and both `true` and `false` are not `< 0`, so
`validate_input` accepts `{name: n, value: b}` for every non-empty string
`n` and bool `b`; `process_data` on such a record succeeds, with a
processed value numerically equal to `b * multiplier`, i.e. `0` or the
multiplier. -/
theorem validate_input_accepts_bool (fsys : FS) (config_path : String)
    (n : String) (b : Bool) (hn : n ≠ "")
    (hm : isNumber (get_config_value fsys "processing" "default_multiplier"
            (.int 2) config_path) = true) :
    validate_input (.dict [("name", .str n), ("value", .bool b)]) = true ∧
    ∃ pv,
      process_data fsys (.dict [("name", .str n), ("value", .bool b)])
          config_path =
        .ok (.dict [("status", .str "success"),
                    ("original_value", .bool b),
                    ("processed_value", pv),
                    ("name", .str n)]) ∧
      pv.asRat = (if b then 1 else 0) *
        (get_config_value fsys "processing" "default_multiplier" (.int 2)
          config_path).asRat := by
  have hlookupName :
      List.lookup "name" [("name", PyVal.str n), ("value", PyVal.bool b)] =
        some (PyVal.str n) := rfl
  have hlookupValue :
      List.lookup "value" [("name", PyVal.str n), ("value", PyVal.bool b)] =
        some (PyVal.bool b) := rfl
  have hv : validate_input (.dict [("name", .str n), ("value", .bool b)]) =
      true := by
    cases b <;>
      simp [validate_input, hlookupName, hlookupValue, isStr, strVal,
        isNumber, PyVal.asRat, hn]
  refine ⟨hv, ?_⟩
  obtain ⟨pv, _, _, h3, h4⟩ :=
    process_data_valid_eq fsys (.dict [("name", .str n), ("value", .bool b)])
      config_path hv hm
  have hitem : (PyVal.dict [("name", .str n), ("value", .bool b)]).item
      "value" = .bool b := rfl
  have hname : (PyVal.dict [("name", .str n), ("value", .bool b)]).item
      "name" = .str n := rfl
  rw [hitem, hname] at h4
  rw [hitem] at h3
  exact ⟨pv, h4, by rw [h3]; rfl⟩

theorem validate_input_accepts_bool_witness :
    validate_input (.dict [("name", .str "x"), ("value", .bool true)]) =
      true ∧
    ∃ pv,
      process_data (fun _ => .absent)
          (.dict [("name", .str "x"), ("value", .bool true)])
          "config.json" =
        .ok (.dict [("status", .str "success"),
                    ("original_value", .bool true),
                    ("processed_value", pv),
                    ("name", .str "x")]) ∧
      pv.asRat = (if true then 1 else 0) *
        (get_config_value (fun _ => .absent) "processing"
          "default_multiplier" (.int 2) "config.json").asRat :=
  validate_input_accepts_bool (fun _ => .absent) "config.json" "x" true
    (by decide) (by decide)

/-- C4: `get_config_value` is total (it cannot raise), returns `default`
whenever loading the configuration fails for any reason, returns
`config[section][key]` when both levels exist, and returns `default`
when the section is absent, the key is absent, or either level is not a
mapping. -/
theorem get_config_value_total_spec (fsys : FS) (sect key : String)
    (default : PyVal) (config_path : String) :
    (∀ e, load_config fsys config_path = .error e →
       get_config_value fsys sect key default config_path = default) ∧
    (∀ top sub v, load_config fsys config_path = .ok (.dict top) →
       List.lookup sect top = some (.dict sub) →
       List.lookup key sub = some v →
       get_config_value fsys sect key default config_path = v) ∧
    (∀ top, load_config fsys config_path = .ok (.dict top) →
       List.lookup sect top = Option.none →
       get_config_value fsys sect key default config_path = default) ∧
    (∀ top sub, load_config fsys config_path = .ok (.dict top) →
       List.lookup sect top = some (.dict sub) →
       List.lookup key sub = Option.none →
       get_config_value fsys sect key default config_path = default) ∧
    (∀ top sv, load_config fsys config_path = .ok (.dict top) →
       List.lookup sect top = some sv → (∀ sub, sv ≠ .dict sub) →
       get_config_value fsys sect key default config_path = default) ∧
    (∀ config, load_config fsys config_path = .ok config →
       (∀ top, config ≠ .dict top) →
       get_config_value fsys sect key default config_path = default) := by
  refine ⟨?_, ?_, ?_, ?_, ?_, ?_⟩
  · intro e he
    simp [get_config_value, he]
  · intro top sub v h1 h2 h3
    simp [get_config_value, h1, h2, h3, dictGet]
  · intro top h1 h2
    simp [get_config_value, h1, h2, dictGet]
  · intro top sub h1 h2 h3
    simp [get_config_value, h1, h2, h3, dictGet]
  · intro top sv h1 h2 hnd
    cases sv
    case dict sub => exact absurd rfl (hnd sub)
    all_goals simp [get_config_value, h1, h2, dictGet]
  · intro config h1 hnd
    cases config
    case dict top => exact absurd rfl (hnd top)
    all_goals simp [get_config_value, h1, dictGet]

theorem get_config_value_total_spec_witness :
    get_config_value (fun _ => .absent) "processing" "default_multiplier"
      (.int 2) "missing.json" = .int 2 :=
  (get_config_value_total_spec (fun _ => .absent) "processing"
    "default_multiplier" (.int 2) "missing.json").2.2.1 [] rfl rfl

/-- C5 counterexample: `load_config` only catches `json.JSONDecodeError`,
so an OS-level error while opening or reading an existing config file
propagates as well — `ParseError` is not the only way `load_config`
fails.  Refuted at the concrete filesystem where `"config.json"` exists
but reading raises "Permission denied". -/
theorem load_config_failure_not_only_parse :
    ¬ (∀ (fsys : FS) (config_path : String) (e : PyErr),
        load_config fsys config_path = .error e →
        e = PyErr.jsonDecodeError) :=
  fun h =>
    absurd
      (h (fun _ => .readError "Permission denied") "config.json"
        (.osError "Permission denied") rfl)
      (by decide)

/-- C5 amended: `load_config` returns an empty configuration when the path
does not exist, the parsed value when the file reads and parses, raises
`json.JSONDecodeError` exactly when the file reads but its content is
malformed, and propagates the underlying OS error when reading the
existing file fails — parse failure is the only error when reading
succeeds. -/
theorem load_config_cases (fsys : FS) (config_path : String) :
    (fsys config_path = .absent →
       load_config fsys config_path = .ok (.dict [])) ∧
    (∀ raw v, fsys config_path = .file ⟨raw, some v⟩ →
       load_config fsys config_path = .ok v) ∧
    (∀ raw, fsys config_path = .file ⟨raw, Option.none⟩ →
       load_config fsys config_path = .error .jsonDecodeError) ∧
    (∀ msg, fsys config_path = .readError msg →
       load_config fsys config_path = .error (.osError msg)) := by
  refine ⟨?_, ?_, ?_, ?_⟩
  · intro h
    simp [load_config, h]
  · intro raw v h
    simp [load_config, h]
  · intro raw h
    simp [load_config, h]
  · intro msg h
    simp [load_config, h]

theorem load_config_cases_witness :
    load_config (fun _ => .absent) "config.json" = .ok (.dict []) :=
  (load_config_cases (fun _ => .absent) "config.json").1 rfl

/-- C6: `file_automation` is total (nothing is raised) and returns exactly
one result dict per case: missing path, file parsing as JSON, file whose
content is not valid JSON (raw text as data), and any other I/O failure
(message carrying the failure description). -/
theorem file_automation_cases (fsys : FS) (file_path : String) :
    (fsys file_path = .absent →
       file_automation fsys file_path =
         { success := false, message := "File not found: " ++ file_path,
           data := .null }) ∧
    (∀ raw v, fsys file_path = .file ⟨raw, some v⟩ →
       file_automation fsys file_path =
         { success := true, message := "File successfully processed as JSON",
           data := v }) ∧
    (∀ raw, fsys file_path = .file ⟨raw, Option.none⟩ →
       file_automation fsys file_path =
         { success := false, message := "File content is not valid JSON",
           data := .str raw }) ∧
    (∀ msg, fsys file_path = .readError msg →
       file_automation fsys file_path =
         { success := false, message := "Error processing file: " ++ msg,
           data := .null }) := by
  refine ⟨?_, ?_, ?_, ?_⟩
  · intro h
    simp [file_automation, h]
  · intro raw v h
    simp [file_automation, h]
  · intro raw h
    simp [file_automation, h]
  · intro msg h
    simp [file_automation, h]

theorem file_automation_cases_witness :
    file_automation (fun _ => .absent) "missing.json" =
      { success := false, message := "File not found: " ++ "missing.json",
        data := .null } :=
  (file_automation_cases (fun _ => .absent) "missing.json").1 rfl

/-- C7: `api_automation` is total (the adapter is the error boundary) and:
success holds iff the transport returned a response with status in
[200, 300); on any response the status code is recorded and `data` is the
parsed JSON body, falling back to the raw response text; a non-2xx status
yields failure with a message naming the status code; a transport-level
failure yields failure with the failure description and a null
status code. -/
theorem api_automation_cases (http : Http) (url method : String)
    (headers : Option (List (String × String))) (data : Option PyVal) :
    ((api_automation http url method headers data).success = true ↔
       ∃ status parsed text,
         http url method.toUpper (headers.getD [])
             (attachPayload method data) = .response status parsed text ∧
         200 ≤ status ∧ status < 300) ∧
    (∀ status parsed text,
       http url method.toUpper (headers.getD [])
           (attachPayload method data) = .response status parsed text →
       (api_automation http url method headers data).status_code =
         some status ∧
       (api_automation http url method headers data).data =
         parsed.getD (.str text) ∧
       (¬ (200 ≤ status ∧ status < 300) →
          (api_automation http url method headers data).success = false ∧
          (api_automation http url method headers data).message =
            "API request failed with status code: " ++ toString status)) ∧
    (∀ msg,
       http url method.toUpper (headers.getD [])
           (attachPayload method data) = .transportError msg →
       (api_automation http url method headers data).success = false ∧
       (api_automation http url method headers data).message =
         "Error making API request: " ++ msg ∧
       (api_automation http url method headers data).status_code =
         Option.none) := by
  cases hout : http url method.toUpper (headers.getD [])
      (attachPayload method data) with
  | response status parsed text =>
      by_cases hr : 200 ≤ status ∧ status < 300
      · cases parsed <;>
          (simp only [api_automation, hout]; rw [if_pos hr]; simp_all)
      · cases parsed <;>
          (simp only [api_automation, hout]; rw [if_neg hr]; simp_all)
  | transportError msg =>
      simp_all [api_automation, hout]

theorem api_automation_cases_witness :
    (api_automation (fun _ _ _ _ => .response 404 Option.none "Not Found")
        "http://example.com" "GET" Option.none Option.none).success =
      false ∧
    (api_automation (fun _ _ _ _ => .response 404 Option.none "Not Found")
        "http://example.com" "GET" Option.none Option.none).message =
      "API request failed with status code: " ++ toString (404 : Int) :=
  ((api_automation_cases
      (fun _ _ _ _ => .response 404 Option.none "Not Found")
      "http://example.com" "GET" Option.none Option.none).2.1
    404 Option.none "Not Found" rfl).2.2 (by decide)

/-- C8 counterexample: a successful API call can hand the pipeline a
non-mapping body (C7: raw text with `success = true`), and
`process_api_response` on such a body raises `AttributeError`
(`.get` on a non-dict) instead of remapping it or returning an error
dict — so the claim does not hold for every response body. -/
theorem process_api_response_nonmapping_raises :
    process_api_response (fun _ => .absent) (.str "plain text body")
      "config.json" = .error (.attributeError "get") := rfl

/-- C8 amended: for every API response body that is a mapping,
`process_api_response` remaps it into
`{name: body.get("title", "Unknown"), value: body.get("id", 0)}` and feeds
that record to `process_data`; on transformer success the `status` field
is rewritten to `"processed"`, and when the remapped record fails
validation the `ValueError` is caught and
`{status: "error", message: <validation message>}` is returned instead of
raising.  (A non-mapping body raises `AttributeError`.) -/
theorem process_api_response_spec (fsys : FS)
    (flds : List (String × PyVal)) (config_path : String) :
    (validate_input
        (.dict [("name", (List.lookup "title" flds).getD (.str "Unknown")),
                ("value", (List.lookup "id" flds).getD (.int 0))]) =
          false →
       process_api_response fsys (.dict flds) config_path =
         .ok (.dict [("status", .str "error"),
                     ("message", .str "Invalid input data")])) ∧
    (∀ result,
       process_data fsys
           (.dict [("name", (List.lookup "title" flds).getD (.str "Unknown")),
                   ("value", (List.lookup "id" flds).getD (.int 0))])
           config_path = .ok result →
       process_api_response fsys (.dict flds) config_path =
         .ok (result.setItem "status" (.str "processed"))) := by
  constructor
  · intro hinvalid
    have herr := process_data_invalid_eq fsys
      (.dict [("name", (List.lookup "title" flds).getD (.str "Unknown")),
              ("value", (List.lookup "id" flds).getD (.int 0))])
      config_path hinvalid
    simp [process_api_response, herr]
  · intro result hres
    simp [process_api_response, hres]

theorem process_api_response_spec_witness :
    process_api_response (fun _ => .absent)
      (.dict [("userId", .int 1), ("id", .int 1),
              ("title", .str "delectus aut autem"),
              ("completed", .bool false)])
      "config.json" =
    .ok (.dict [("status", .str "processed"), ("original_value", .int 1),
                ("processed_value", .int 2),
                ("name", .str "delectus aut autem")]) :=
  (process_api_response_spec (fun _ => .absent)
    [("userId", .int 1), ("id", .int 1),
     ("title", .str "delectus aut autem"), ("completed", .bool false)]
    "config.json").2
    (.dict [("status", .str "success"), ("original_value", .int 1),
            ("processed_value", .int 2), ("name", .str "delectus aut autem")])
    rfl

/-- A string append with non-empty left part is non-empty (helper). -/
theorem append_str_ne_empty (s t : String) (h : s.length ≠ 0) :
    s ++ t ≠ "" := by
  intro hc
  have hlen := congrArg String.length hc
  rw [String.length_append] at hlen
  have h0 : String.length "" = 0 := rfl
  rw [h0] at hlen
  omega

/-- C9: every failing result of either source adapter carries a non-empty
message: on every return path of `file_automation` and `api_automation`,
`success = false` implies the message is not the empty string. -/
theorem adapter_failure_message_nonempty :
    (∀ (fsys : FS) (file_path : String),
       (file_automation fsys file_path).success = false →
       (file_automation fsys file_path).message ≠ "") ∧
    (∀ (http : Http) (url method : String)
       (headers : Option (List (String × String))) (data : Option PyVal),
       (api_automation http url method headers data).success = false →
       (api_automation http url method headers data).message ≠ "") := by
  constructor
  · intro fsys file_path hfail
    cases h : fsys file_path with
    | absent =>
        simp only [file_automation, h]
        exact append_str_ne_empty _ _ (by decide)
    | file f =>
        cases hp : f.parsed with
        | none => simp [file_automation, h, hp]
        | some v => simp [file_automation, h, hp] at hfail
    | readError msg =>
        simp only [file_automation, h]
        exact append_str_ne_empty _ _ (by decide)
  · intro http url method headers data hfail
    cases h : http url method.toUpper (headers.getD [])
        (attachPayload method data) with
    | response status parsed text =>
        by_cases hr : 200 ≤ status ∧ status < 300
        · cases parsed <;> simp only [api_automation, h] at hfail <;>
            rw [if_pos hr] at hfail <;> simp at hfail
        · cases parsed <;> simp only [api_automation, h] <;>
            rw [if_neg hr] <;>
            exact append_str_ne_empty _ _ (by decide)
    | transportError msg =>
        simp only [api_automation, h]
        exact append_str_ne_empty _ _ (by decide)

theorem adapter_failure_message_nonempty_witness :
    (file_automation (fun _ => .absent) "config.json").message ≠ "" :=
  adapter_failure_message_nonempty.1 (fun _ => .absent) "config.json" rfl
